import Mathlib

/-!
Verification of the stock-dashboard data pipeline (src/main.py).

The script downloads a daily OHLCV price table, derives a rolling moving
average and a rounded percent-change column, range-filters dividend and
split histories, reshapes three Alpha Vantage statement payloads, and
digests a Polygon news payload.  Prices are modelled as exact rationals,
a statement payload as its transposed row list, and the pipeline as a
function from injected provider responses to a composite result together
with the trace of provider calls it performs.
-/

namespace StockDashboard

/-- One daily OHLCV row of the downloaded price table. -/
structure PriceBar where
  open_ : ℚ
  high : ℚ
  low : ℚ
  close : ℚ
  volume : ℚ
deriving DecidableEq, Inhabited, Repr

/-- The two derived columns attached to each price bar: the rolling moving
average (absent for the first rows) and the rounded percent change. -/
structure DerivedSeries where
  moving_average : Option ℚ
  pct_change : ℚ
deriving DecidableEq, Inhabited, Repr

/-- Python round to two decimal places, on exact rationals. -/
def roundTo2 (y : ℚ) : ℚ := (round (y * 100) : ℚ) / 100

/-- Raw percent change of a close series: entry 0 is the fill value 0
(pandas pct_change yields NaN there and the script applies fillna(0));
entry i for i > 0 divides the close by the previous close and subtracts 1.
Embeds data[% Change] of main.py line 66 before scaling and rounding. -/
def pctChangeRaw : List ℚ → List ℚ
  | [] => []
  | c :: cs => 0 :: cs.zipWith (fun cur prev => cur / prev - 1) (c :: cs)

/-- The % Change column of main.py line 66: raw percent change scaled by
100 and rounded to two decimals. -/
def pctChange (closes : List ℚ) : List ℚ :=
  (pctChangeRaw closes).map (fun x => roundTo2 (x * 100))

/-- The MA column of main.py line 62: pandas rolling(window=w).mean() over
the close series.  Entry i is absent until a full window of w closes is
available, and is otherwise the mean of the w-element slice ending at i. -/
def movingAverage (closes : List ℚ) (w : ℕ) : List (Option ℚ) :=
  (List.range closes.length).map (fun i =>
    if w ≤ i + 1 then some ((((closes.drop (i + 1 - w)).take w).sum) / (w : ℚ)) else none)

/-- Attaching the two derived columns to the price table (main.py lines
62 and 66): each bar is paired with its moving-average and percent-change
entries, positionally. -/
def normalize (bars : List PriceBar) (w : ℕ) : List (PriceBar × DerivedSeries) :=
  bars.zip (((movingAverage (bars.map PriceBar.close) w).zip
    (pctChange (bars.map PriceBar.close))).map
    (fun p => DerivedSeries.mk p.1 p.2))

/-- A dividend or split event, with its timezone-stripped date modelled as
an integer day number. -/
structure CorporateAction where
  date : ℤ
  value : ℚ
deriving DecidableEq, Inhabited, Repr

/-- Date-range filtering of a corporate-action history (main.py lines
118 and 119): the label slice loc[start_date:end_date] on a naive date
index keeps exactly the events whose date lies in the closed range. -/
def filterRange (actions : List CorporateAction) (s e : ℤ) : List CorporateAction :=
  actions.filter (fun a => decide (s ≤ a.date ∧ a.date ≤ e))

/-- A transposed statement payload: one row per label, the first two rows
being provider metadata (fiscal date and reported currency), the rest the
metric rows.  Each row carries its label and its per-period values. -/
def StatementPayload : Type := List (String × List String)

/-- A reshaped statement table: the period labels used as column keys,
and the metric rows. -/
def StatementTable : Type := List String × List (String × List String)

/-- The statement reshaping of main.py lines 144 and 145: drop the first
two transposed rows and take the first row of the transposition as the
column keys.  Absent when the payload has no rows at all (iloc[0] raises
there and the surrounding handler reports the statement unavailable). -/
def reshape (rows : StatementPayload) : Option StatementTable :=
  match rows with
  | [] => none
  | r0 :: _ => some (r0.2, rows.drop 2)

/-- Fixed message shown when the price download returns an empty table
(main.py line 55). -/
def noDataMsg : String := "No data found. Please check the ticker symbol or date range."

/-- Message shown when the price download raises (main.py line 58). -/
def fetchErrMsg (e : String) : String := "Error fetching data: " ++ e

/-- Message shown by all three statement handlers (main.py lines 149,
159 and 169). -/
def stmtErrMsg : String := "Error fetching Cash Flow Statement data.API limit Reached."

/-- Message shown when no news articles are available (main.py line 211). -/
def noNewsMsg : String := "No news articles found for the specified ticker."

/-- One per-article sentiment insight from the news payload. -/
structure Insight where
  sentiment : Option String
deriving DecidableEq, Inhabited, Repr

/-- The publisher object nested in a news article. -/
structure Publisher where
  name : Option String
deriving DecidableEq, Inhabited, Repr

/-- A raw news article as returned by the provider; every field the
renderer reads is optional. -/
structure Article where
  published_utc : Option String
  title : Option String
  description : Option String
  insights : Option (List Insight)
  publisher : Option Publisher
  image_url : Option String
deriving DecidableEq, Inhabited, Repr

/-- A rendered news item (main.py lines 199 to 208). -/
structure NewsItem where
  published_at : String
  title : String
  summary : String
  sentiment : String
  source_name : String
  image_url : Option String
deriving DecidableEq, Inhabited, Repr

/-- Sentiment extraction of main.py line 203: when the insights key is
present and the list is non-empty, take the first insight's sentiment
with an N/A fallback; otherwise N/A. -/
def sentimentOf (a : Article) : String :=
  match a.insights with
  | some (i :: _) => i.sentiment.getD "N/A"
  | some [] => "N/A"
  | none => "N/A"

/-- Rendering of one article (main.py lines 199 to 208): every missing
field degrades to the N/A placeholder; the image is kept optional. -/
def renderArticle (a : Article) : NewsItem where
  published_at := a.published_utc.getD "N/A"
  title := a.title.getD "N/A"
  summary := a.description.getD "N/A"
  sentiment := sentimentOf a
  source_name := (match a.publisher with
    | some p => p.name.getD "N/A"
    | none => "N/A")
  image_url := a.image_url

/-- A raw news payload: the results collection may be missing. -/
structure NewsPayload where
  results : Option (List Article)
deriving DecidableEq, Inhabited, Repr

/-- The news fetch of main.py lines 182 to 194: a transport failure or a
payload without a results key yields nothing, otherwise the article list. -/
def get_stock_news (payload : Except String NewsPayload) : Option (List Article) :=
  match payload with
  | .error _ => none
  | .ok p => p.results

/-- The news section of main.py lines 196 to 211: a missing article list
and an empty article list (both falsy in the Python conditional) show the
no-articles error; otherwise the first five articles are rendered in the
provider's order. -/
def newsSection (nd : Option (List Article)) : Except String (List NewsItem) :=
  match nd with
  | some l => if l.isEmpty then .error noNewsMsg else .ok ((l.take 5).map renderArticle)
  | none => .error noNewsMsg

/-- The per-statement section of main.py lines 141 to 169: any failure of
the fetch, and any payload on which the reshape fails, is caught by the
surrounding handler and reported with the fixed statement error message. -/
def statementSection (f : Except String StatementPayload) : Except String StatementTable :=
  match f with
  | .error _ => .error stmtErrMsg
  | .ok raw =>
    match reshape raw with
    | some t => .ok t
    | none => .error stmtErrMsg

/-- The injected provider responses for one pipeline invocation: the
price download outcome, the full dividend and split histories, the three
statement fetch outcomes and the news fetch outcome. -/
structure Providers where
  fetchPrices : Except String (List PriceBar)
  fetchDividends : List CorporateAction
  fetchSplits : List CorporateAction
  fetchBalanceSheet : Except String StatementPayload
  fetchIncomeStatement : Except String StatementPayload
  fetchCashFlow : Except String StatementPayload
  fetchNews : Except String NewsPayload

/-- Tags for the provider calls a pipeline invocation performs. -/
inductive ProviderCall where
  | prices
  | dividends
  | splits
  | balanceSheet
  | incomeStatement
  | cashFlow
  | news
deriving DecidableEq, Repr

/-- The composite result assembled for presentation.  Modelled from the
spec: the script renders each section directly instead of building a
record, so the AggregationResult record and its per-section error markers
follow the data model of the specification, while the content of every
section is taken from the script. -/
structure AggregationResult where
  prices : Except String (List (PriceBar × DerivedSeries))
  dividends : Except String (List CorporateAction)
  splits : Except String (List CorporateAction)
  balance_sheet : Except String StatementTable
  income_statement : Except String StatementTable
  cash_flow : Except String StatementTable
  news : Except String (List NewsItem)

/-- The result in which every section carries the same fatal message. -/
def allFatal (msg : String) : AggregationResult where
  prices := .error msg
  dividends := .error msg
  splits := .error msg
  balance_sheet := .error msg
  income_statement := .error msg
  cash_flow := .error msg
  news := .error msg

/-- The pipeline of main.py, instrumented with the trace of provider
calls.  Modelled from the spec for the abort path: the script halts via
st.stop after a failed or empty price download, which the specification
describes as returning a result whose every section is the same fatal
error; the guard itself, the order of the remaining calls and every
section's content follow the script (lines 52 to 211). -/
def run (p : Providers) (s e : ℤ) (w : ℕ) : AggregationResult × List ProviderCall :=
  match p.fetchPrices with
  | .error err => (allFatal (fetchErrMsg err), [ProviderCall.prices])
  | .ok bars =>
    if bars.isEmpty then
      (allFatal noDataMsg, [ProviderCall.prices])
    else
      ({ prices := .ok (normalize bars w)
         dividends := .ok (filterRange p.fetchDividends s e)
         splits := .ok (filterRange p.fetchSplits s e)
         balance_sheet := statementSection p.fetchBalanceSheet
         income_statement := statementSection p.fetchIncomeStatement
         cash_flow := statementSection p.fetchCashFlow
         news := newsSection (get_stock_news p.fetchNews) },
       [ProviderCall.prices, ProviderCall.dividends, ProviderCall.splits,
        ProviderCall.balanceSheet, ProviderCall.incomeStatement, ProviderCall.cashFlow,
        ProviderCall.news])

/-- A sample price bar used to exercise the pipeline on concrete input. -/
def bar1 : PriceBar := ⟨189, 191, 188, 190, 1000000⟩

/-- Concrete provider responses whose price download raises. -/
def pFail : Providers where
  fetchPrices := .error "timeout"
  fetchDividends := [⟨10, 1⟩]
  fetchSplits := []
  fetchBalanceSheet := .ok [("fiscalDateEnding", ["2023"])]
  fetchIncomeStatement := .error "limit"
  fetchCashFlow := .error "limit"
  fetchNews := .ok { results := some [default] }

/-- Concrete provider responses with a successful one-bar price download,
one failing statement fetch, one reshapable statement payload and one
empty statement payload. -/
def pOk : Providers where
  fetchPrices := .ok [bar1]
  fetchDividends := [⟨10, 1⟩]
  fetchSplits := []
  fetchBalanceSheet := .error "limit"
  fetchIncomeStatement :=
    .ok [("fiscalDateEnding", ["2023"]), ("reportedCurrency", ["USD"]),
         ("totalAssets", ["100"])]
  fetchCashFlow := .ok []
  fetchNews := .ok { results := none }

/-- Eight articles with every optional field missing, used to exercise
the news digest. -/
def articles8 : List Article := List.replicate 8 default

theorem pctChangeRaw_length (closes : List ℚ) :
    (pctChangeRaw closes).length = closes.length := by
  cases closes with
  | nil => rfl
  | cons c cs => simp [pctChangeRaw]

theorem pctChange_length (closes : List ℚ) :
    (pctChange closes).length = closes.length := by
  simp [pctChange, pctChangeRaw_length]

theorem movingAverage_length (closes : List ℚ) (w : ℕ) :
    (movingAverage closes w).length = closes.length := by
  simp [movingAverage]

theorem normalize_length (bars : List PriceBar) (w : ℕ) :
    (normalize bars w).length = bars.length := by
  simp [normalize, movingAverage_length, pctChange_length]

/-- Claim C2: the derived pct_change at index 0 equals exactly 0, and at
every index i > 0 it equals round(100 × (close[i] / close[i−1] − 1), 2). -/
theorem pct_change_spec (closes : List ℚ) (i : ℕ) (hi : i < closes.length) :
    (pctChange closes).getD 0 0 = 0 ∧
    (0 < i → (pctChange closes).getD i 0 =
      roundTo2 (100 * (closes.getD i 0 / closes.getD (i - 1) 0 - 1))) := by
  obtain ⟨c, cs, rfl⟩ : ∃ c cs, closes = c :: cs := by
    cases closes with
    | nil => simp at hi
    | cons c cs => exact ⟨c, cs, rfl⟩
  constructor
  · simp [pctChange, pctChangeRaw, roundTo2]
  · intro hpos
    obtain ⟨j, rfl⟩ : ∃ j, i = j + 1 := ⟨i - 1, by omega⟩
    have hj : j < cs.length := by
      simp only [List.length_cons] at hi; omega
    have hlen : j + 1 < (pctChange (c :: cs)).length := by
      rw [pctChange_length]; exact hi
    have hj1 : j + 1 - 1 < (c :: cs).length := by
      simp only [List.length_cons]; omega
    rw [List.getD_eq_getElem _ _ hlen, List.getD_eq_getElem _ _ hi,
      List.getD_eq_getElem _ _ hj1]
    simp only [pctChange, pctChangeRaw, List.getElem_map, List.getElem_cons_succ,
      Nat.add_sub_cancel]
    rw [List.getElem_zipWith]
    rw [mul_comm]

/-- Witness for C2 at the close series [100, 110, 99] and index 1. -/
theorem pct_change_spec_witness :
    1 < ([100, 110, 99] : List ℚ).length ∧
    ((pctChange [100, 110, 99]).getD 0 0 = 0 ∧
     (0 < 1 → (pctChange [100, 110, 99]).getD 1 0 =
       roundTo2 (100 * (([100, 110, 99] : List ℚ).getD 1 0 /
         ([100, 110, 99] : List ℚ).getD 0 0 - 1)))) :=
  ⟨by simp, pct_change_spec [100, 110, 99] 1 (by simp)⟩

theorem take_drop_eq_map_range (l : List ℚ) (a w : ℕ) (h : a + w ≤ l.length) :
    (l.drop a).take w = (List.range w).map (fun j => l.getD (a + j) 0) := by
  apply List.ext_getElem
  · simp; omega
  · intro i h1 h2
    have hiw : i < w := by
      simp only [List.length_take, List.length_drop, lt_min_iff] at h1
      exact h1.1
    have hai : a + i < l.length := by omega
    rw [List.getElem_take, List.getElem_drop, List.getElem_map, List.getElem_range,
      List.getD_eq_getElem _ _ hai]

/-- Claim C3: the derived moving_average at index i is defined iff
i ≥ ma_window − 1, and when defined it equals the arithmetic mean of the
ma_window closes at indices i − ma_window + 1 through i. -/
theorem moving_average_spec (closes : List ℚ) (w i : ℕ) (hw : 1 ≤ w)
    (hi : i < closes.length) :
    ((movingAverage closes w).getD i none ≠ none ↔ w - 1 ≤ i) ∧
    (w - 1 ≤ i → (movingAverage closes w).getD i none =
      some ((((List.range w).map (fun j => closes.getD (i + 1 - w + j) 0)).sum) / (w : ℚ))) := by
  have hlen : i < (movingAverage closes w).length := by
    rw [movingAverage_length]; exact hi
  rw [List.getD_eq_getElem _ _ hlen]
  simp only [movingAverage, List.getElem_map, List.getElem_range]
  constructor
  · split_ifs with hcond
    · simp only [ne_eq, reduceCtorEq, not_false_iff, true_iff]; omega
    · have hni : ¬ (w - 1 ≤ i) := by omega
      simp [hni]
  · intro hwi
    have hcond : w ≤ i + 1 := by omega
    rw [if_pos hcond]
    rw [take_drop_eq_map_range closes (i + 1 - w) w (by omega)]

/-- Witness for C3 at the close series [100, 110, 99], window 2, index 1. -/
theorem moving_average_spec_witness :
    1 ≤ 2 ∧ 1 < ([100, 110, 99] : List ℚ).length ∧
    (((movingAverage [100, 110, 99] 2).getD 1 none ≠ none ↔ 2 - 1 ≤ 1) ∧
     (2 - 1 ≤ 1 → (movingAverage [100, 110, 99] 2).getD 1 none =
       some ((((List.range 2).map
         (fun j => ([100, 110, 99] : List ℚ).getD (1 + 1 - 2 + j) 0)).sum) / (2 : ℚ)))) :=
  ⟨by simp, by simp, moving_average_spec [100, 110, 99] 2 1 (by simp) (by simp)⟩

/-- Claim C4: normalization produces exactly one DerivedSeries per input
bar, attached in the same order, so the output has the same length and
ordering as the input. -/
theorem normalize_spec (bars : List PriceBar) (w : ℕ) (_hne : bars ≠ []) :
    (normalize bars w).length = bars.length ∧
    (normalize bars w).map Prod.fst = bars := by
  refine ⟨normalize_length bars w, ?_⟩
  unfold normalize
  apply List.map_fst_zip
  simp [movingAverage_length, pctChange_length]

/-- Witness for C4 at a one-bar price table and window 20. -/
theorem normalize_spec_witness :
    [bar1] ≠ [] ∧
    ((normalize [bar1] 20).length = [bar1].length ∧
     (normalize [bar1] 20).map Prod.fst = [bar1]) :=
  ⟨by simp, normalize_spec [bar1] 20 (by simp)⟩

/-- Claim C9: computing the derived columns leaves every original OHLCV
field of every row unchanged; only the derived columns are added. -/
theorem normalize_frame_effect (bars : List PriceBar) (w i : ℕ) (hi : i < bars.length) :
    ((normalize bars w).getD i default).1.open_ = (bars.getD i default).open_ ∧
    ((normalize bars w).getD i default).1.high = (bars.getD i default).high ∧
    ((normalize bars w).getD i default).1.low = (bars.getD i default).low ∧
    ((normalize bars w).getD i default).1.close = (bars.getD i default).close ∧
    ((normalize bars w).getD i default).1.volume = (bars.getD i default).volume := by
  have h1 : i < (normalize bars w).length := by
    rw [normalize_length]; exact hi
  rw [List.getD_eq_getElem _ _ h1, List.getD_eq_getElem _ _ hi]
  have key : ((normalize bars w).get ⟨i, h1⟩).1 = bars.get ⟨i, hi⟩ := by
    simp only [normalize, List.get_eq_getElem]
    rw [List.getElem_zip]
  simp only [List.get_eq_getElem] at key
  exact ⟨by rw [key], by rw [key], by rw [key], by rw [key], by rw [key]⟩

/-- Witness for C9 at a one-bar price table, window 20, index 0. -/
theorem normalize_frame_effect_witness :
    0 < [bar1].length ∧
    (((normalize [bar1] 20).getD 0 default).1.open_ = ([bar1].getD 0 default).open_ ∧
     ((normalize [bar1] 20).getD 0 default).1.high = ([bar1].getD 0 default).high ∧
     ((normalize [bar1] 20).getD 0 default).1.low = ([bar1].getD 0 default).low ∧
     ((normalize [bar1] 20).getD 0 default).1.close = ([bar1].getD 0 default).close ∧
     ((normalize [bar1] 20).getD 0 default).1.volume = ([bar1].getD 0 default).volume) :=
  ⟨by simp, normalize_frame_effect [bar1] 20 0 (by simp)⟩

/-- Claim C5: range-filtering a corporate-action history excludes every
event dated strictly outside [start, end] and includes every event dated
exactly at either bound. -/
theorem filter_range_spec (actions : List CorporateAction) (s e : ℤ)
    (hse : s ≤ e) (a : CorporateAction) (ha : a ∈ actions) :
    ((a.date < s ∨ e < a.date) → a ∉ filterRange actions s e) ∧
    ((a.date = s ∨ a.date = e) → a ∈ filterRange actions s e) := by
  constructor
  · intro hout hmem
    rw [filterRange, List.mem_filter] at hmem
    have hin := hmem.2
    simp only [decide_eq_true_eq] at hin
    omega
  · intro hb
    rw [filterRange, List.mem_filter]
    refine ⟨ha, ?_⟩
    simp only [decide_eq_true_eq]
    omega

/-- Witness for C5: the event dated 0 lies on the start bound of [0, 3]. -/
theorem filter_range_spec_witness :
    (0 : ℤ) ≤ 3 ∧ (⟨0, 1⟩ : CorporateAction) ∈ [(⟨0, 1⟩ : CorporateAction), ⟨5, 2⟩] ∧
    ((((⟨0, 1⟩ : CorporateAction).date < 0 ∨ (3 : ℤ) < (⟨0, 1⟩ : CorporateAction).date) →
       (⟨0, 1⟩ : CorporateAction) ∉ filterRange [⟨0, 1⟩, ⟨5, 2⟩] 0 3) ∧
     (((⟨0, 1⟩ : CorporateAction).date = 0 ∨ (⟨0, 1⟩ : CorporateAction).date = 3) →
       (⟨0, 1⟩ : CorporateAction) ∈ filterRange [⟨0, 1⟩, ⟨5, 2⟩] 0 3)) :=
  ⟨by norm_num, by simp, filter_range_spec [⟨0, 1⟩, ⟨5, 2⟩] 0 3 (by norm_num) ⟨0, 1⟩ (by simp)⟩

/-- Claim C6: the news digest retains exactly the first 5 articles of an
8-article payload in the provider's order, and an article missing its
sentiment (or title) field yields the N/A placeholder, not a failure. -/
theorem news_digest_spec (l : List Article) (hl : l.length = 8) (a : Article)
    (hins : a.insights = none) (htitle : a.title = none) :
    newsSection (some l) = Except.ok ((l.take 5).map renderArticle) ∧
    ((l.take 5).map renderArticle).length = 5 ∧
    (∀ i, i < 5 → ((l.take 5).map renderArticle).getD i default =
      renderArticle (l.getD i default)) ∧
    (renderArticle a).sentiment = "N/A" ∧
    (renderArticle a).title = "N/A" := by
  have hne : l.isEmpty = false := by
    cases l with
    | nil => simp at hl
    | cons x xs => rfl
  refine ⟨by simp [newsSection, hne], by simp [hl], ?_, ?_, ?_⟩
  · intro i hi5
    have hlen : i < ((l.take 5).map renderArticle).length := by
      simp [hl]; omega
    have hil : i < l.length := by omega
    rw [List.getD_eq_getElem _ _ hlen, List.getD_eq_getElem _ _ hil]
    rw [List.getElem_map, List.getElem_take]
  · show sentimentOf a = "N/A"
    simp [sentimentOf, hins]
  · show a.title.getD "N/A" = "N/A"
    rw [htitle]; rfl

/-- Witness for C6 at eight all-absent articles. -/
theorem news_digest_spec_witness :
    articles8.length = 8 ∧ (default : Article).insights = none ∧
    (default : Article).title = none ∧
    (newsSection (some articles8) = Except.ok ((articles8.take 5).map renderArticle) ∧
     ((articles8.take 5).map renderArticle).length = 5 ∧
     (∀ i, i < 5 → ((articles8.take 5).map renderArticle).getD i default =
       renderArticle (articles8.getD i default)) ∧
     (renderArticle default).sentiment = "N/A" ∧
     (renderArticle default).title = "N/A") :=
  ⟨rfl, rfl, rfl, news_digest_spec articles8 rfl default rfl rfl⟩

/-- Claim C8: statement reshaping drops the first two transposed rows as
provider metadata, takes the metadata row's entries as the output's
column keys, and keeps exactly the N metric rows keyed by metric label. -/
theorem reshape_spec (m0 m1 : String × List String)
    (metrics : List (String × List String)) :
    ∃ t, reshape (m0 :: m1 :: metrics) = some t ∧ t.1 = m0.2 ∧ t.2 = metrics ∧
      t.2.length = metrics.length ∧ t.2.map Prod.fst = metrics.map Prod.fst :=
  ⟨(m0.2, metrics), rfl, rfl, rfl, rfl, rfl⟩

/-- Claim C10: a news payload whose results collection is present but
empty is treated exactly like one lacking the collection: both produce
the no-articles error marker. -/
theorem news_empty_results (p : NewsPayload) (h : p.results = some []) :
    newsSection (get_stock_news (Except.ok p)) = Except.error noNewsMsg ∧
    newsSection (get_stock_news (Except.ok { results := none })) = Except.error noNewsMsg ∧
    newsSection (get_stock_news (Except.ok p)) =
      newsSection (get_stock_news (Except.ok { results := none })) := by
  refine ⟨?_, rfl, ?_⟩ <;> simp [newsSection, get_stock_news, h]

/-- Witness for C10 at the payload holding an empty results list. -/
theorem news_empty_results_witness :
    (NewsPayload.mk (some [])).results = some [] ∧
    (newsSection (get_stock_news (Except.ok (NewsPayload.mk (some [])))) =
       Except.error noNewsMsg ∧
     newsSection (get_stock_news (Except.ok { results := none })) = Except.error noNewsMsg ∧
     newsSection (get_stock_news (Except.ok (NewsPayload.mk (some [])))) =
       newsSection (get_stock_news (Except.ok { results := none }))) :=
  ⟨rfl, news_empty_results (NewsPayload.mk (some [])) rfl⟩

/-- Claim C1: when the price fetch raises or returns an empty result set,
the pipeline aborts entirely: every section of the result carries the
same fatal error and no other provider call is performed. -/
theorem price_failure_aborts (p : Providers) (s e : ℤ) (w : ℕ)
    (h : (∃ msg, p.fetchPrices = Except.error msg) ∨ p.fetchPrices = Except.ok []) :
    ∃ fatal,
      (run p s e w).1.prices = Except.error fatal ∧
      (run p s e w).1.dividends = Except.error fatal ∧
      (run p s e w).1.splits = Except.error fatal ∧
      (run p s e w).1.balance_sheet = Except.error fatal ∧
      (run p s e w).1.income_statement = Except.error fatal ∧
      (run p s e w).1.cash_flow = Except.error fatal ∧
      (run p s e w).1.news = Except.error fatal ∧
      (run p s e w).2 = [ProviderCall.prices] := by
  rcases h with ⟨msg, hm⟩ | hm
  · exact ⟨fetchErrMsg msg, by simp [run, hm, allFatal], by simp [run, hm, allFatal],
      by simp [run, hm, allFatal], by simp [run, hm, allFatal], by simp [run, hm, allFatal],
      by simp [run, hm, allFatal], by simp [run, hm, allFatal], by simp [run, hm]⟩
  · exact ⟨noDataMsg, by simp [run, hm, allFatal], by simp [run, hm, allFatal],
      by simp [run, hm, allFatal], by simp [run, hm, allFatal], by simp [run, hm, allFatal],
      by simp [run, hm, allFatal], by simp [run, hm, allFatal], by simp [run, hm]⟩

/-- Witness for C1 at concrete provider responses whose price download
raises. -/
theorem price_failure_aborts_witness :
    ((∃ msg, pFail.fetchPrices = Except.error msg) ∨ pFail.fetchPrices = Except.ok []) ∧
    (∃ fatal,
      (run pFail 0 3 20).1.prices = Except.error fatal ∧
      (run pFail 0 3 20).1.dividends = Except.error fatal ∧
      (run pFail 0 3 20).1.splits = Except.error fatal ∧
      (run pFail 0 3 20).1.balance_sheet = Except.error fatal ∧
      (run pFail 0 3 20).1.income_statement = Except.error fatal ∧
      (run pFail 0 3 20).1.cash_flow = Except.error fatal ∧
      (run pFail 0 3 20).1.news = Except.error fatal ∧
      (run pFail 0 3 20).2 = [ProviderCall.prices]) :=
  ⟨Or.inl ⟨"timeout", rfl⟩, price_failure_aborts pFail 0 3 20 (Or.inl ⟨"timeout", rfl⟩)⟩

/-- Claim C7: the three statement fetch+reshape operations are invoked
independently: each statement section is a function of its own fetch
outcome alone, any failure is caught and reported as that section's
error marker, and the rest of the pipeline (prices, actions, news and
the full call sequence) is unaffected. -/
theorem statements_independent (p : Providers) (s e : ℤ) (w : ℕ)
    (bars : List PriceBar) (hp : p.fetchPrices = Except.ok bars) (hne : bars ≠ []) :
    (run p s e w).1.balance_sheet = statementSection p.fetchBalanceSheet ∧
    (run p s e w).1.income_statement = statementSection p.fetchIncomeStatement ∧
    (run p s e w).1.cash_flow = statementSection p.fetchCashFlow ∧
    (∀ msg, statementSection (Except.error msg) = Except.error stmtErrMsg) ∧
    (run p s e w).1.prices = Except.ok (normalize bars w) ∧
    (run p s e w).1.dividends = Except.ok (filterRange p.fetchDividends s e) ∧
    (run p s e w).1.splits = Except.ok (filterRange p.fetchSplits s e) ∧
    (run p s e w).1.news = newsSection (get_stock_news p.fetchNews) ∧
    (run p s e w).2 = [ProviderCall.prices, ProviderCall.dividends, ProviderCall.splits,
      ProviderCall.balanceSheet, ProviderCall.incomeStatement, ProviderCall.cashFlow,
      ProviderCall.news] := by
  have hemp : bars.isEmpty = false := by
    cases bars with
    | nil => exact absurd rfl hne
    | cons x xs => rfl
  refine ⟨?_, ?_, ?_, fun msg => rfl, ?_, ?_, ?_, ?_, ?_⟩ <;> simp [run, hp, hemp]

/-- Witness for C7 at concrete provider responses with a one-bar price
series and a failing balance-sheet fetch. -/
theorem statements_independent_witness :
    pOk.fetchPrices = Except.ok [bar1] ∧ [bar1] ≠ [] ∧
    ((run pOk 0 3 20).1.balance_sheet = statementSection pOk.fetchBalanceSheet ∧
     (run pOk 0 3 20).1.income_statement = statementSection pOk.fetchIncomeStatement ∧
     (run pOk 0 3 20).1.cash_flow = statementSection pOk.fetchCashFlow ∧
     (∀ msg, statementSection (Except.error msg) = Except.error stmtErrMsg) ∧
     (run pOk 0 3 20).1.prices = Except.ok (normalize [bar1] 20) ∧
     (run pOk 0 3 20).1.dividends = Except.ok (filterRange pOk.fetchDividends 0 3) ∧
     (run pOk 0 3 20).1.splits = Except.ok (filterRange pOk.fetchSplits 0 3) ∧
     (run pOk 0 3 20).1.news = newsSection (get_stock_news pOk.fetchNews) ∧
     (run pOk 0 3 20).2 = [ProviderCall.prices, ProviderCall.dividends, ProviderCall.splits,
       ProviderCall.balanceSheet, ProviderCall.incomeStatement, ProviderCall.cashFlow,
       ProviderCall.news]) :=
  ⟨rfl, by simp, statements_independent pOk 0 3 20 [bar1] rfl (by simp)⟩

end StockDashboard
